import Mathlib

/-!
# Agendify backend: OAuth2 PKCE flow and the engagement trigger

A shallow embedding of `src/server.js`:

* the PKCE helpers `generateCodeVerifier` and `generateCodeChallenge`
  (lines 105-116), with the Node primitives they call (`Buffer` hex and
  base64 encodings, SHA-256) modelled after RFC 4648 and FIPS 180-4;
* the two route handlers `GET /auth/twitter` (lines 119-138) and
  `GET /api/auth/twitter/callback2` (lines 141-185) as functions on an
  explicit session and token store;
* the cron expression registered at lines 16-22.
-/

namespace Agendify

/-! ## Bytes and the Buffer encodings -/

/-- A byte of a Node `Buffer`. -/
abbrev Byte := Fin 256

/-- The result of `crypto.randomBytes(n)`: exactly `n` bytes. -/
abbrev RandomBytes (n : Nat) := { l : List Byte // l.length = n }

/-- The lowercase hexadecimal digit of a nibble, as `Buffer.toString("hex")` prints it. -/
def hexDigit (n : Nat) : Char :=
  if n < 10 then Char.ofNat (48 + n) else Char.ofNat (87 + n)

/-- The two hexadecimal digits of one byte, high nibble first. -/
def hexByte (b : Byte) : List Char :=
  [hexDigit (b.val / 16), hexDigit (b.val % 16)]

/-- The characters of `buf.toString("hex")`. -/
def toHexChars : List Byte → List Char
  | [] => []
  | b :: bs => hexByte b ++ toHexChars bs

/-- The string `buf.toString("hex")`. -/
def toHex (bs : List Byte) : String :=
  String.mk (toHexChars bs)

/-- The value of a lowercase hexadecimal digit, if the character is one. -/
def hexValue (c : Char) : Option Nat :=
  if 48 ≤ c.toNat ∧ c.toNat ≤ 57 then some (c.toNat - 48)
  else if 97 ≤ c.toNat ∧ c.toNat ≤ 102 then some (c.toNat - 87)
  else none

/-- Reads a lowercase hexadecimal string back into bytes (the inverse of `toHexChars`). -/
def fromHexChars : List Char → Option (List Byte)
  | [] => some []
  | [_] => none
  | hi :: lo :: rest =>
    match hexValue hi, hexValue lo, fromHexChars rest with
    | some h, some l, some bs => some (Fin.ofNat (16 * h + l) :: bs)
    | _, _, _ => none

/-- A character of the lowercase hexadecimal alphabet `[0-9a-f]`. -/
def isLowerHexChar (c : Char) : Prop :=
  ('0' ≤ c ∧ c ≤ '9') ∨ ('a' ≤ c ∧ c ≤ 'f')

/-- Source `generateCodeVerifier` (lines 105-107):
`crypto.randomBytes(32).toString("hex")`, as a function of the bytes drawn. -/
def generateCodeVerifier (rnd : RandomBytes 32) : String :=
  toHex rnd.val

/-! ## UTF-8, SHA-256 and base64 (Node `crypto` and `Buffer`) -/

/-- The UTF-8 bytes of a string, as `hash.update(v)` and `Buffer.from(v)` read it. -/
def utf8Bytes (s : String) : List Byte :=
  s.data.flatMap (fun c => (String.utf8EncodeChar c).map (fun b => Fin.ofNat b.toNat))

/-- The round constants of SHA-256 (FIPS 180-4, section 4.2.2). -/
def sha256K : List Nat := [
  0x428a2f98, 0x71374491, 0xb5c0fbcf, 0xe9b5dba5, 0x3956c25b, 0x59f111f1, 0x923f82a4, 0xab1c5ed5,
  0xd807aa98, 0x12835b01, 0x243185be, 0x550c7dc3, 0x72be5d74, 0x80deb1fe, 0x9bdc06a7, 0xc19bf174,
  0xe49b69c1, 0xefbe4786, 0x0fc19dc6, 0x240ca1cc, 0x2de92c6f, 0x4a7484aa, 0x5cb0a9dc, 0x76f988da,
  0x983e5152, 0xa831c66d, 0xb00327c8, 0xbf597fc7, 0xc6e00bf3, 0xd5a79147, 0x06ca6351, 0x14292967,
  0x27b70a85, 0x2e1b2138, 0x4d2c6dfc, 0x53380d13, 0x650a7354, 0x766a0abb, 0x81c2c92e, 0x92722c85,
  0xa2bfe8a1, 0xa81a664b, 0xc24b8b70, 0xc76c51a3, 0xd192e819, 0xd6990624, 0xf40e3585, 0x106aa070,
  0x19a4c116, 0x1e376c08, 0x2748774c, 0x34b0bcb5, 0x391c0cb3, 0x4ed8aa4a, 0x5b9cca4f, 0x682e6ff3,
  0x748f82ee, 0x78a5636f, 0x84c87814, 0x8cc70208, 0x90befffa, 0xa4506ceb, 0xbef9a3f7, 0xc67178f2]

/-- The eight 32-bit working words of SHA-256. -/
structure Sha256State where
  a : Nat
  b : Nat
  c : Nat
  d : Nat
  e : Nat
  f : Nat
  g : Nat
  h : Nat

/-- The initial hash value of SHA-256 (FIPS 180-4, section 5.3.3). -/
def sha256Init : Sha256State :=
  ⟨0x6a09e667, 0xbb67ae85, 0x3c6ef372, 0xa54ff53a, 0x510e527f, 0x9b05688c, 0x1f83d9ab, 0x5be0cd19⟩

/-- Addition of 32-bit words, wrapping at `2 ^ 32`. -/
def add32 (x y : Nat) : Nat := (x + y) % 2 ^ 32

/-- Rotation of a 32-bit word to the right by `n` bits. -/
def rotr32 (n x : Nat) : Nat := ((x >>> n) ||| (x <<< (32 - n))) % 2 ^ 32

/-- Bitwise complement of a 32-bit word. -/
def not32 (x : Nat) : Nat := x ^^^ 0xffffffff

/-- The function `Ch` of FIPS 180-4. -/
def shaCh (x y z : Nat) : Nat := (x &&& y) ^^^ (not32 x &&& z)

/-- The function `Maj` of FIPS 180-4. -/
def shaMaj (x y z : Nat) : Nat := (x &&& y) ^^^ (x &&& z) ^^^ (y &&& z)

/-- The function `Σ0` of FIPS 180-4. -/
def bigSigma0 (x : Nat) : Nat := rotr32 2 x ^^^ rotr32 13 x ^^^ rotr32 22 x

/-- The function `Σ1` of FIPS 180-4. -/
def bigSigma1 (x : Nat) : Nat := rotr32 6 x ^^^ rotr32 11 x ^^^ rotr32 25 x

/-- The function `σ0` of FIPS 180-4. -/
def smallSigma0 (x : Nat) : Nat := rotr32 7 x ^^^ rotr32 18 x ^^^ (x >>> 3)

/-- The function `σ1` of FIPS 180-4. -/
def smallSigma1 (x : Nat) : Nat := rotr32 17 x ^^^ rotr32 19 x ^^^ (x >>> 10)

/-- Message padding: a `0x80` byte, zero bytes up to 56 modulo 64, then the bit
length as a 64-bit big-endian integer. -/
def sha256Pad (msg : List Byte) : List Byte :=
  let len := msg.length
  let zeros := (64 - (len + 9) % 64) % 64
  let lenBytes : List Byte :=
    (List.range 8).map (fun i => Fin.ofNat ((8 * len) >>> (8 * (7 - i))))
  msg ++ [(0x80 : Byte)] ++ List.replicate zeros (0 : Byte) ++ lenBytes

/-- The `i`-th big-endian 32-bit word of a 64-byte block. -/
def wordAt (block : List Byte) (i : Nat) : Nat :=
  (block.getD (4 * i) 0).val * 2 ^ 24 + (block.getD (4 * i + 1) 0).val * 2 ^ 16 +
    (block.getD (4 * i + 2) 0).val * 2 ^ 8 + (block.getD (4 * i + 3) 0).val

/-- Extends the message schedule by the word `W t`. -/
def scheduleStep (w : List Nat) (t : Nat) : List Nat :=
  w ++ [add32 (add32 (smallSigma1 (w.getD (t - 2) 0)) (w.getD (t - 7) 0))
          (add32 (smallSigma0 (w.getD (t - 15) 0)) (w.getD (t - 16) 0))]

/-- The 64 words of the message schedule of one block. -/
def sha256Schedule (block : List Byte) : List Nat :=
  ((List.range 48).map (· + 16)).foldl scheduleStep ((List.range 16).map (wordAt block))

/-- One round of the compression function, on the pair `(K t, W t)`. -/
def sha256Round (s : Sha256State) (kw : Nat × Nat) : Sha256State :=
  let t1 := add32 (add32 (add32 s.h (bigSigma1 s.e)) (shaCh s.e s.f s.g)) (add32 kw.1 kw.2)
  let t2 := add32 (bigSigma0 s.a) (shaMaj s.a s.b s.c)
  ⟨add32 t1 t2, s.a, s.b, s.c, add32 s.d t1, s.e, s.f, s.g⟩

/-- The compression of one 64-byte block into the running hash value. -/
def sha256Block (s : Sha256State) (block : List Byte) : Sha256State :=
  let r := (sha256K.zip (sha256Schedule block)).foldl sha256Round s
  ⟨add32 s.a r.a, add32 s.b r.b, add32 s.c r.c, add32 s.d r.d,
   add32 s.e r.e, add32 s.f r.f, add32 s.g r.g, add32 s.h r.h⟩

/-- The four big-endian bytes of a 32-bit word. -/
def wordBytes (w : Nat) : List Byte :=
  [Fin.ofNat (w >>> 24), Fin.ofNat (w >>> 16), Fin.ofNat (w >>> 8), Fin.ofNat w]

/-- The digest `crypto.createHash("sha256").update(msg).digest()`. -/
def sha256 (msg : List Byte) : List Byte :=
  let padded := sha256Pad msg
  let s := (List.range (padded.length / 64)).foldl
    (fun s i => sha256Block s ((padded.drop (64 * i)).take 64)) sha256Init
  wordBytes s.a ++ wordBytes s.b ++ wordBytes s.c ++ wordBytes s.d ++
    wordBytes s.e ++ wordBytes s.f ++ wordBytes s.g ++ wordBytes s.h

/-- The standard base64 alphabet (RFC 4648, table 1). -/
def base64Alphabet : List Char :=
  "ABCDEFGHIJKLMNOPQRSTUVWXYZabcdefghijklmnopqrstuvwxyz0123456789+/".data

/-- The URL-safe base64 alphabet (RFC 4648, table 2). -/
def base64UrlAlphabet : List Char :=
  "ABCDEFGHIJKLMNOPQRSTUVWXYZabcdefghijklmnopqrstuvwxyz0123456789-_".data

/-- The standard base64 character of a 6-bit group. -/
def base64Char (i : Nat) : Char :=
  base64Alphabet.getD (i % 64) 'A'

/-- The URL-safe base64 character of a 6-bit group. -/
def base64UrlChar (i : Nat) : Char :=
  base64UrlAlphabet.getD (i % 64) 'A'

/-- The characters of `buf.toString("base64")`: standard alphabet, padded with `=`. -/
def base64Chars : List Byte → List Char
  | [] => []
  | [a] =>
    [base64Char (a.val / 4), base64Char (a.val * 16), '=', '=']
  | [a, b] =>
    [base64Char (a.val / 4), base64Char (a.val * 16 + b.val / 16), base64Char (b.val * 4), '=']
  | a :: b :: c :: rest =>
    [base64Char (a.val / 4), base64Char (a.val * 16 + b.val / 16),
     base64Char (b.val * 4 + c.val / 64), base64Char c.val] ++ base64Chars rest

/-- The unpadded base64url encoding, written after RFC 4648 section 5: the
URL-safe alphabet and no `=` at the end. -/
def base64UrlNoPad : List Byte → List Char
  | [] => []
  | [a] =>
    [base64UrlChar (a.val / 4), base64UrlChar (a.val * 16)]
  | [a, b] =>
    [base64UrlChar (a.val / 4), base64UrlChar (a.val * 16 + b.val / 16),
     base64UrlChar (b.val * 4)]
  | a :: b :: c :: rest =>
    [base64UrlChar (a.val / 4), base64UrlChar (a.val * 16 + b.val / 16),
     base64UrlChar (b.val * 4 + c.val / 64), base64UrlChar c.val] ++ base64UrlNoPad rest

/-- A character of the base64url alphabet: `A-Z`, `a-z`, `0-9`, `-` or `_`. -/
def isBase64UrlChar (c : Char) : Prop :=
  ('A' ≤ c ∧ c ≤ 'Z') ∨ ('a' ≤ c ∧ c ≤ 'z') ∨ ('0' ≤ c ∧ c ≤ '9') ∨ c = '-' ∨ c = '_'

/-- The call `s.replace(/x/g, y)` for a single character `x`. -/
def replaceAllChar (x y : Char) (s : List Char) : List Char :=
  s.map (fun c => if c = x then y else c)

/-- The call `s.replace(/=+$/, "")`: drops the run of `=` that ends the string. -/
def stripTrailingEquals (s : List Char) : List Char :=
  (s.reverse.dropWhile (fun c => c == '=')).reverse

/-- Source `generateCodeChallenge` (lines 108-116): the base64 digest of the
verifier with `+` and `/` replaced and the trailing `=` removed. -/
def generateCodeChallenge (v : String) : String :=
  String.mk
    (stripTrailingEquals
      (replaceAllChar '/' '_'
        (replaceAllChar '+' '-'
          (base64Chars (sha256 (utf8Bytes v))))))

/-! ## JavaScript values, the session and the token store -/

/-- The JavaScript values that a query parameter, a session field or a token
field can hold: `undefined`, `null`, a string, or an array or object (known
by its reference only). -/
inductive JSVal where
  | undefined
  | null
  | str (s : String)
  | obj (ref : Nat)
  deriving DecidableEq, Repr

/-- The operator `!v`: true for `undefined`, `null` and the empty string. -/
def jsNot : JSVal → Bool
  | .undefined => true
  | .null => true
  | .str s => s == ""
  | .obj _ => false

/-- The operator `a === b`: same type and same value, objects by reference. -/
def strictEq : JSVal → JSVal → Bool
  | .undefined, .undefined => true
  | .null, .null => true
  | .str s, .str t => s == t
  | .obj r, .obj q => r == q
  | _, _ => false

/-- A value that is missing (`undefined` or `null`) or the empty string. -/
def missingOrEmpty (v : JSVal) : Prop :=
  v = .undefined ∨ v = .null ∨ v = .str ""

/-- The fields of `req.session` that the OAuth handlers read and write. -/
structure Session where
  state : JSVal
  codeVerifier : JSVal
  deriving DecidableEq, Repr

/-- The pair handed to `tokenStore.setUserTokens`. -/
structure TokenPair where
  accessToken : JSVal
  refreshToken : JSVal
  deriving DecidableEq, Repr

/-- The content of the Token Store: absent until the first exchange. -/
abbrev TokenStore := Option TokenPair

/-- Modelled from the spec: `setUserTokens` of `./controllers/tokenStore`, which
is not among the sources. Section 4.3: it replaces the single stored pair. -/
def setUserTokens (pair : TokenPair) (_store : TokenStore) : TokenStore :=
  some pair

/-- Modelled from the spec: `getTokens` of section 4.3, the current pair or absent. -/
def getTokens (store : TokenStore) : Option TokenPair :=
  store

/-- The environment variables `CLIENT_ID` and `CLIENT_SECRET`; each may be unset. -/
structure Config where
  clientId : Option String
  clientSecret : Option String
  deriving DecidableEq, Repr

/-- The value of `process.env.X`: the string, or `undefined` when unset. -/
def envValue : Option String → JSVal
  | some s => .str s
  | none => .undefined

/-- The text of `process.env.X` inside a template literal. -/
def envText : Option String → String
  | some s => s
  | none => "undefined"

/-- The response a handler sends: `res.status(n).send(body)` (status 200 when
not set), or `res.redirect(base + querystring.stringify(params))`. -/
inductive Response where
  | send (status : Nat) (body : String)
  | redirect (base : String) (params : List (String × JSVal))
  deriving DecidableEq, Repr

/-- The HTTP status of a response; `res.redirect` answers 302. -/
def Response.status : Response → Nat
  | .send n _ => n
  | .redirect _ _ => 302

/-- The object whose query string a redirect carries; empty for other responses. -/
def Response.params : Response → List (String × JSVal)
  | .send _ _ => []
  | .redirect _ params => params

/-- The value of a key in an object literal, read as a list of pairs. -/
def lookupParam (key : String) : List (String × JSVal) → Option JSVal
  | [] => none
  | (k, v) :: rest => if k = key then some v else lookupParam key rest

/-! ## Start: `GET /auth/twitter` (lines 119-138) -/

/-- The redirect URI, written out at lines 128 and 157. -/
def redirectUri : String :=
  "https://agendifyx.up.railway.app/api/auth/twitter/callback2"

/-- The object `params` of lines 125-133. -/
def startParams (cfg : Config) (state challenge : String) : List (String × JSVal) :=
  [("response_type", .str "code"),
   ("client_id", envValue cfg.clientId),
   ("redirect_uri", .str "https://agendifyx.up.railway.app/api/auth/twitter/callback2"),
   ("scope", .str "tweet.read tweet.write users.read"),
   ("state", .str state),
   ("code_challenge", .str challenge),
   ("code_challenge_method", .str "S256")]

/-- What Start leaves behind: the session and the redirect. -/
structure StartResult where
  session : Session
  response : Response
  deriving DecidableEq, Repr

/-- Source handler of `GET /auth/twitter`; `stateBytes` and `verifierBytes` are
the results of the two calls of `crypto.randomBytes`. -/
def startHandler (cfg : Config) (stateBytes : RandomBytes 8)
    (verifierBytes : RandomBytes 32) (_session : Session) : StartResult :=
  let state := toHex stateBytes.val
  let verifier := generateCodeVerifier verifierBytes
  let challenge := generateCodeChallenge verifier
  { session := { codeVerifier := .str verifier, state := .str state }
    response := .redirect "https://twitter.com/i/oauth2/authorize?"
      (startParams cfg state challenge) }

/-! ## Callback: `GET /api/auth/twitter/callback2` (lines 141-185) -/

/-- The query parameters `code` and `state` of the callback. -/
structure CallbackQuery where
  code : JSVal
  state : JSVal
  deriving DecidableEq, Repr

/-- The POST that `axios.post` sends to the token endpoint: the URL, the object
given to `querystring.stringify`, and the two headers. -/
structure TokenRequest where
  url : String
  form : List (String × JSVal)
  contentType : String
  authorization : String
  deriving DecidableEq, Repr

/-- The request built at lines 151-170. -/
def tokenRequest (cfg : Config) (code verifier : JSVal) : TokenRequest :=
  { url := "https://api.twitter.com/2/oauth2/token"
    form :=
      [("grant_type", .str "authorization_code"),
       ("code", code),
       ("client_id", envValue cfg.clientId),
       ("redirect_uri", .str "https://agendifyx.up.railway.app/api/auth/twitter/callback2"),
       ("code_verifier", verifier)]
    contentType := "application/x-www-form-urlencoded"
    authorization :=
      "Basic " ++ String.mk
        (base64Chars (utf8Bytes (envText cfg.clientId ++ ":" ++ envText cfg.clientSecret))) }

/-- The parsed body `resp.data`, as far as line 172 reads it: `null` or
`undefined`, or a value with its `access_token` and `refresh_token`. -/
inductive RespData where
  | nullish
  | props (access_token refresh_token : JSVal)
  deriving DecidableEq, Repr

/-- What the token request meets: no response at all; a response without a
`Location` header; a response with a `Location` header, together with what the
request to that location meets in turn; or more redirects than the HTTP client
of axios is willing to follow. -/
inductive ProviderOutcome where
  | networkError
  | http (status : Nat) (data : RespData)
  | located (status : Nat) (data : RespData) (next : ProviderOutcome)
  | tooManyRedirects
  deriving DecidableEq, Repr

/-- The status of the provider's own answer to the token request, before any
redirect is followed; none when there is no answer. -/
def providerStatus : ProviderOutcome → Option Nat
  | .networkError => none
  | .http status _ => some status
  | .located status _ _ => some status
  | .tooManyRedirects => none

/-- The response axios ends at. The call at lines 151-170 passes headers only, so
the defaults of axios apply: a 3xx answer that carries a `Location` is followed,
any other answer is final, and there is no response after a network error or
too many redirects. -/
def finalResponse : ProviderOutcome → Option (Nat × RespData)
  | .networkError => none
  | .http status data => some (status, data)
  | .located status data next =>
    if 300 ≤ status ∧ status < 400 then finalResponse next else some (status, data)
  | .tooManyRedirects => none

/-- The call `await axios.post(...)`: it resolves with the body when the final
response has a 2xx status (the default `validateStatus`) and throws otherwise. -/
def axiosPost (o : ProviderOutcome) : Option RespData :=
  match finalResponse o with
  | some (status, data) => if 200 ≤ status ∧ status < 300 then some data else none
  | none => none

/-- The token request fails: a network error, too many redirects, or a final
response whose status is outside 2xx. -/
def requestFails (o : ProviderOutcome) : Prop :=
  match finalResponse o with
  | some (status, _) => ¬ (200 ≤ status ∧ status < 300)
  | none => True

/-- The guard of line 143:
`!code || state !== req.session.state || !req.session.codeVerifier`. -/
def callbackRejects (q : CallbackQuery) (session : Session) : Bool :=
  jsNot q.code || !(strictEq q.state session.state) || jsNot session.codeVerifier

/-- What the callback leaves behind: the response, the session, the Token Store
and the token requests it handed to `axios.post`. -/
structure CallbackResult where
  response : Response
  session : Session
  store : TokenStore
  requests : List TokenRequest
  deriving DecidableEq, Repr

/-- The page sent at lines 178-180. -/
def connectedPage : String :=
  "<h1>Twitter Connected!</h1><p>You can now close this window and start promoting.</p>"

/-- Source handler of `GET /api/auth/twitter/callback2`; `provider` tells what
the token endpoint does with a request. -/
def callbackHandler (cfg : Config) (provider : TokenRequest → ProviderOutcome)
    (q : CallbackQuery) (session : Session) (store : TokenStore) : CallbackResult :=
  if callbackRejects q session then
    { response := .send 400 "Invalid OAuth callback."
      session := session, store := store, requests := [] }
  else
    let verifier := session.codeVerifier
    let cleared : Session := { state := .null, codeVerifier := .null }
    let request := tokenRequest cfg q.code verifier
    match axiosPost (provider request) with
    | some (.props access_token refresh_token) =>
      { response := .send 200 connectedPage
        session := cleared
        store := setUserTokens
          { accessToken := access_token, refreshToken := refresh_token } store
        requests := [request] }
    | some .nullish =>
      { response := .send 500 "OAuth token exchange failed."
        session := cleared, store := store, requests := [request] }
    | none =>
      { response := .send 500 "OAuth token exchange failed."
        session := cleared, store := store, requests := [request] }

/-! ## The engagement trigger (lines 16-22) -/

/-- One field of a cron expression, for the two forms the registered expression
uses: `*`, or a comma-separated list of numbers. -/
inductive CronField where
  | any
  | values (vs : List Nat)
  deriving DecidableEq, Repr

/-- A five-field cron expression: minute, hour, day of month, month, day of week. -/
structure CronSchedule where
  minute : CronField
  hour : CronField
  dayOfMonth : CronField
  month : CronField
  dayOfWeek : CronField
  deriving DecidableEq, Repr

/-- A minute of the calendar, in the timezone of the process. -/
structure CronTime where
  minute : Nat
  hour : Nat
  dayOfMonth : Nat
  month : Nat
  dayOfWeek : Nat
  deriving DecidableEq, Repr

/-- Splits a string at every occurrence of a separator. -/
def splitOnChar (sep : Char) : List Char → List (List Char)
  | [] => [[]]
  | c :: cs =>
    match splitOnChar sep cs with
    | [] => [[]]
    | w :: ws => if c = sep then [] :: w :: ws else (c :: w) :: ws

/-- Reads decimal digits onto an accumulator; `none` on any other character. -/
def parseDigits (acc : Nat) : List Char → Option Nat
  | [] => some acc
  | c :: cs =>
    if 48 ≤ c.toNat ∧ c.toNat ≤ 57 then parseDigits (10 * acc + (c.toNat - 48)) cs
    else none

/-- Reads a non-empty decimal number. -/
def parseNumber (cs : List Char) : Option Nat :=
  if cs = [] then none else parseDigits 0 cs

/-- Reads every item of a list, failing when one of them fails. -/
def parseAll {α β : Type} (f : α → Option β) : List α → Option (List β)
  | [] => some []
  | x :: xs =>
    match f x, parseAll f xs with
    | some y, some ys => some (y :: ys)
    | _, _ => none

/-- Reads one field of a cron expression. -/
def parseCronField (cs : List Char) : Option CronField :=
  if cs = ['*'] then some .any
  else (parseAll parseNumber (splitOnChar ',' cs)).map .values

/-- Reads a five-field cron expression. -/
def parseCron (expr : String) : Option CronSchedule :=
  match parseAll parseCronField (splitOnChar ' ' expr.data) with
  | some [mi, h, dom, mon, dow] => some ⟨mi, h, dom, mon, dow⟩
  | _ => none

/-- Whether a field of the expression admits a value. -/
def CronField.admits : CronField → Nat → Bool
  | .any, _ => true
  | .values vs, n => vs.contains n

/-- Whether a cron expression fires in a given minute. -/
def cronFires (expr : String) (t : CronTime) : Bool :=
  match parseCron expr with
  | some s =>
    s.minute.admits t.minute && s.hour.admits t.hour && s.dayOfMonth.admits t.dayOfMonth &&
      s.month.admits t.month && s.dayOfWeek.admits t.dayOfWeek
  | none => false

/-- The expression given to `cron.schedule` at line 16. -/
def engagementSchedule : String :=
  "30 13,20 * * *"

/-- The message the trigger logs when it fires (line 17), which names its fire times. -/
def engagementLogMessage : String :=
  "🕒 Running engagement update script (13:30 or 20:00)"

/-! ## Sample inputs -/

/-- The draw of `crypto.randomBytes(n)` that consists of zero bytes. -/
def zeroBytes (n : Nat) : RandomBytes n :=
  ⟨List.replicate n 0, List.length_replicate n 0⟩

/-- A configuration with both environment variables set. -/
def sampleConfig : Config :=
  ⟨some "id", some "secret"⟩

/-! ## The Buffer encodings -/

theorem toHexChars_cons (b : Byte) (bs : List Byte) :
    toHexChars (b :: bs) =
      hexDigit (b.val / 16) :: hexDigit (b.val % 16) :: toHexChars bs :=
  rfl

theorem toHexChars_length (bs : List Byte) : (toHexChars bs).length = 2 * bs.length := by
  induction bs with
  | nil => rfl
  | cons b bs ih => simp [toHexChars, hexByte, ih]; omega

theorem hexDigit_lower (n : Fin 16) : isLowerHexChar (hexDigit n.val) := by
  revert n
  unfold isLowerHexChar
  decide

theorem hexValue_hexDigit (n : Fin 16) : hexValue (hexDigit n.val) = some n.val := by
  revert n
  decide

theorem toHexChars_lower (bs : List Byte) : ∀ c ∈ toHexChars bs, isLowerHexChar c := by
  induction bs with
  | nil => simp [toHexChars]
  | cons b bs ih =>
    intro c hc
    simp only [toHexChars, hexByte, List.cons_append, List.nil_append, List.mem_cons] at hc
    rcases hc with rfl | rfl | hc
    · exact hexDigit_lower ⟨b.val / 16, by omega⟩
    · exact hexDigit_lower ⟨b.val % 16, by omega⟩
    · exact ih c hc

theorem fromHexChars_toHexChars (bs : List Byte) : fromHexChars (toHexChars bs) = some bs := by
  induction bs with
  | nil => rfl
  | cons b bs ih =>
    have h1 := hexValue_hexDigit ⟨b.val / 16, by omega⟩
    have h2 := hexValue_hexDigit ⟨b.val % 16, by omega⟩
    simp only at h1 h2
    rw [toHexChars_cons, fromHexChars, h1, h2, ih]
    simp only
    congr 2
    apply Fin.ext
    simp only [Fin.ofNat, Fin.val_mk]
    omega

theorem generateCodeVerifier_length (rnd : RandomBytes 32) :
    (generateCodeVerifier rnd).length = 64 := by
  simp [generateCodeVerifier, toHex, String.length, toHexChars_length, rnd.property]

theorem generateCodeVerifier_ne_empty (rnd : RandomBytes 32) :
    generateCodeVerifier rnd ≠ "" := by
  intro h
  have := generateCodeVerifier_length rnd
  rw [h] at this
  simp at this

set_option maxRecDepth 100000 in
/-- The model of SHA-256 on the test vector "abc" of FIPS 180-4. -/
theorem sha256_abc :
    toHex (sha256 (utf8Bytes "abc")) =
      "ba7816bf8f01cfea414140de5dae2223b00361a396177a9cb410ff61f20015ad" := by
  decide

set_option maxRecDepth 100000 in
/-- The challenge of the example verifier of RFC 7636, appendix B. -/
theorem generateCodeChallenge_rfc7636 :
    generateCodeChallenge "dBjftJeZ4CVP-mB92K27uhbUJU1p1r_wW1gFWFOEjXk" =
      "E9Melhoa2OwvFrEMTJguCHaoeK1t8URWbuGJSstw-cM" := by
  decide

theorem sha256_length (msg : List Byte) : (sha256 msg).length = 32 := by
  simp [sha256, wordBytes]

theorem base64Char_urlSafe (i : Nat) :
    replaceAllChar '/' '_' (replaceAllChar '+' '-' [base64Char i]) = [base64UrlChar i] := by
  have h : ∀ j : Fin 64,
      replaceAllChar '/' '_' (replaceAllChar '+' '-' [base64Alphabet.getD j.val 'A']) =
        [base64UrlAlphabet.getD j.val 'A'] := by
    decide
  exact h ⟨i % 64, Nat.mod_lt i (by decide)⟩

theorem base64UrlChar_inAlphabet (i : Nat) :
    isBase64UrlChar (base64UrlChar i) ∧ base64UrlChar i ≠ '=' := by
  have h : ∀ j : Fin 64, isBase64UrlChar (base64UrlAlphabet.getD j.val 'A') ∧
      base64UrlAlphabet.getD j.val 'A' ≠ '=' := by
    unfold isBase64UrlChar
    decide
  exact h ⟨i % 64, Nat.mod_lt i (by decide)⟩

theorem urlSafe_cons (c d : Char) (s : List Char) :
    replaceAllChar '/' '_' (replaceAllChar '+' '-' (c :: d :: s)) =
      replaceAllChar '/' '_' (replaceAllChar '+' '-' [c]) ++
        replaceAllChar '/' '_' (replaceAllChar '+' '-' (d :: s)) := by
  simp [replaceAllChar]

theorem urlSafe_append (s t : List Char) :
    replaceAllChar '/' '_' (replaceAllChar '+' '-' (s ++ t)) =
      replaceAllChar '/' '_' (replaceAllChar '+' '-' s) ++
        replaceAllChar '/' '_' (replaceAllChar '+' '-' t) := by
  simp [replaceAllChar]

theorem urlSafe_equals :
    replaceAllChar '/' '_' (replaceAllChar '+' '-' ['=']) = ['='] := by
  decide

/-- The two replacements turn the padded base64 text into the unpadded
base64url text followed by the padding. -/
theorem base64Chars_urlSafe (bs : List Byte) :
    replaceAllChar '/' '_' (replaceAllChar '+' '-' (base64Chars bs)) =
      base64UrlNoPad bs ++ List.replicate ((3 - bs.length % 3) % 3) '=' := by
  induction bs using base64Chars.induct with
  | case1 => rfl
  | case2 a =>
    simp only [base64Chars, base64UrlNoPad, urlSafe_cons, base64Char_urlSafe, urlSafe_equals]
    rfl
  | case3 a b =>
    simp only [base64Chars, base64UrlNoPad, urlSafe_cons, base64Char_urlSafe, urlSafe_equals]
    rfl
  | case4 a b c rest ih =>
    have hlen : (3 - (a :: b :: c :: rest).length % 3) % 3 = (3 - rest.length % 3) % 3 := by
      simp only [List.length_cons]
      omega
    rw [hlen]
    rw [base64Chars, base64UrlNoPad, urlSafe_append, ih]
    simp only [urlSafe_cons, base64Char_urlSafe, List.cons_append, List.nil_append,
      List.append_assoc]

theorem base64UrlNoPad_inAlphabet (bs : List Byte) :
    ∀ c ∈ base64UrlNoPad bs, isBase64UrlChar c ∧ c ≠ '=' := by
  induction bs using base64UrlNoPad.induct with
  | case1 => simp [base64UrlNoPad]
  | case2 a =>
    intro c hc
    simp only [base64UrlNoPad, List.mem_cons, List.mem_singleton] at hc
    rcases hc with rfl | rfl | hc
    · exact base64UrlChar_inAlphabet _
    · exact base64UrlChar_inAlphabet _
    · simp at hc
  | case3 a b =>
    intro c hc
    simp only [base64UrlNoPad, List.mem_cons, List.mem_singleton] at hc
    rcases hc with rfl | rfl | rfl | hc
    · exact base64UrlChar_inAlphabet _
    · exact base64UrlChar_inAlphabet _
    · exact base64UrlChar_inAlphabet _
    · simp at hc
  | case4 a b c rest ih =>
    intro x hx
    simp only [base64UrlNoPad, List.cons_append, List.nil_append, List.mem_cons] at hx
    rcases hx with rfl | rfl | rfl | rfl | hx
    · exact base64UrlChar_inAlphabet _
    · exact base64UrlChar_inAlphabet _
    · exact base64UrlChar_inAlphabet _
    · exact base64UrlChar_inAlphabet _
    · exact ih x hx

theorem base64UrlNoPad_length (bs : List Byte) :
    (base64UrlNoPad bs).length = (4 * bs.length + 2) / 3 := by
  induction bs using base64UrlNoPad.induct with
  | case1 => rfl
  | case2 a => simp [base64UrlNoPad]
  | case3 a b => simp [base64UrlNoPad]
  | case4 a b c rest ih =>
    simp only [base64UrlNoPad, List.cons_append, List.nil_append, List.length_cons, ih]
    omega

theorem stripTrailingEquals_snoc (s : List Char) :
    stripTrailingEquals (s ++ ['=']) = stripTrailingEquals s := by
  simp [stripTrailingEquals, List.dropWhile]

theorem stripTrailingEquals_of_no_equals (s : List Char) (h : ∀ c ∈ s, c ≠ '=') :
    stripTrailingEquals s = s := by
  unfold stripTrailingEquals
  have hd : List.dropWhile (fun c => c == '=') s.reverse = s.reverse := by
    cases hr : s.reverse with
    | nil => rfl
    | cons x xs =>
      have hx : x ∈ s := by
        rw [← List.mem_reverse, hr]
        exact List.mem_cons_self x xs
      have hne : (x == '=') = false := by simpa using h x hx
      simp [List.dropWhile, hne]
  rw [hd, List.reverse_reverse]

theorem stripTrailingEquals_padding (s : List Char) (k : Nat) (h : ∀ c ∈ s, c ≠ '=') :
    stripTrailingEquals (s ++ List.replicate k '=') = s := by
  induction k with
  | zero => simpa using stripTrailingEquals_of_no_equals s h
  | succ k ih =>
    rw [List.replicate_succ', ← List.append_assoc, stripTrailingEquals_snoc, ih]

theorem generateCodeChallenge_eq (v : String) :
    generateCodeChallenge v = String.mk (base64UrlNoPad (sha256 (utf8Bytes v))) := by
  unfold generateCodeChallenge
  rw [base64Chars_urlSafe, stripTrailingEquals_padding _ _
    (fun c hc => (base64UrlNoPad_inAlphabet _ c hc).2)]

/-! ## The callback guard -/

theorem jsNot_eq_true_iff (v : JSVal) : jsNot v = true ↔ missingOrEmpty v := by
  cases v <;> simp [jsNot, missingOrEmpty]

theorem callbackRejects_iff (q : CallbackQuery) (session : Session) :
    callbackRejects q session = true ↔
      missingOrEmpty q.code ∨ strictEq q.state session.state = false ∨
        missingOrEmpty session.codeVerifier := by
  simp [callbackRejects, jsNot_eq_true_iff, or_assoc]

theorem callbackHandler_rejected (cfg : Config) (provider : TokenRequest → ProviderOutcome)
    (q : CallbackQuery) (session : Session) (store : TokenStore)
    (h : callbackRejects q session = true) :
    callbackHandler cfg provider q session store =
      { response := .send 400 "Invalid OAuth callback."
        session := session, store := store, requests := [] } := by
  simp [callbackHandler, h]

theorem callbackHandler_status_400_iff (cfg : Config)
    (provider : TokenRequest → ProviderOutcome) (q : CallbackQuery) (session : Session)
    (store : TokenStore) :
    (callbackHandler cfg provider q session store).response.status = 400 ↔
      callbackRejects q session = true := by
  by_cases h : callbackRejects q session = true
  · simp [callbackHandler, h, Response.status]
  · simp only [callbackHandler, h, if_false, iff_false]
    generalize axiosPost (provider (tokenRequest cfg q.code session.codeVerifier)) = r
    rcases r with _ | _ | _ <;> simp [Response.status]

theorem callbackHandler_accepted_session (cfg : Config)
    (provider : TokenRequest → ProviderOutcome) (q : CallbackQuery) (session : Session)
    (store : TokenStore) (h : callbackRejects q session = false) :
    (callbackHandler cfg provider q session store).session =
      { state := .null, codeVerifier := .null } := by
  unfold callbackHandler
  simp only [h, Bool.false_eq_true, if_false]
  split <;> rfl

theorem callbackHandler_accepted_requests (cfg : Config)
    (provider : TokenRequest → ProviderOutcome) (q : CallbackQuery) (session : Session)
    (store : TokenStore) (h : callbackRejects q session = false) :
    (callbackHandler cfg provider q session store).requests =
      [tokenRequest cfg q.code session.codeVerifier] := by
  unfold callbackHandler
  simp only [h, Bool.false_eq_true, if_false]
  split <;> rfl

theorem axiosPost_eq_none_of_fails (o : ProviderOutcome) (h : requestFails o) :
    axiosPost o = none := by
  unfold requestFails at h
  unfold axiosPost
  cases hf : finalResponse o with
  | none => rfl
  | some r =>
    rw [hf] at h
    simp only at h
    simp [h]

/-! ## Claims on the callback handler -/

/-- C1: the callback answers HTTP 400 exactly when `code` is missing or empty, or
`state` is not strictly equal to the session's `state`, or the session's
`codeVerifier` is missing or empty; and when it answers 400 it sends no token
request and leaves the Token Store as it was. -/
theorem callback_responds_400_iff (cfg : Config) (provider : TokenRequest → ProviderOutcome)
    (q : CallbackQuery) (session : Session) (store : TokenStore) :
    ((callbackHandler cfg provider q session store).response.status = 400 ↔
      (missingOrEmpty q.code ∨ strictEq q.state session.state = false ∨
        missingOrEmpty session.codeVerifier)) ∧
    ((callbackHandler cfg provider q session store).response.status = 400 →
      (callbackHandler cfg provider q session store).requests = [] ∧
      (callbackHandler cfg provider q session store).store = store) := by
  refine ⟨?_, ?_⟩
  · rw [callbackHandler_status_400_iff, callbackRejects_iff]
  · intro h
    rw [callbackHandler_status_400_iff] at h
    rw [callbackHandler_rejected cfg provider q session store h]
    exact ⟨rfl, rfl⟩

/-- C3: when validation passes and the token endpoint answers 2xx with
`access_token` and `refresh_token`, the Token Store holds exactly that pair,
whatever it held before, and the response is the confirmation page with status
200; after a second such exchange the store holds the second pair. -/
theorem callback_success_replaces_tokens (cfg : Config)
    (provider1 provider2 : TokenRequest → ProviderOutcome) (q1 q2 : CallbackQuery)
    (session1 session2 : Session) (store : TokenStore) (status1 status2 : Nat)
    (A B : TokenPair)
    (hvalid1 : callbackRejects q1 session1 = false)
    (hvalid2 : callbackRejects q2 session2 = false)
    (hstatus1 : 200 ≤ status1 ∧ status1 < 300)
    (hstatus2 : 200 ≤ status2 ∧ status2 < 300)
    (hresp1 : provider1 (tokenRequest cfg q1.code session1.codeVerifier) =
      .http status1 (.props A.accessToken A.refreshToken))
    (hresp2 : provider2 (tokenRequest cfg q2.code session2.codeVerifier) =
      .http status2 (.props B.accessToken B.refreshToken)) :
    (callbackHandler cfg provider1 q1 session1 store).response = .send 200 connectedPage ∧
    getTokens (callbackHandler cfg provider1 q1 session1 store).store = some A ∧
    (callbackHandler cfg provider2 q2 session2
      (callbackHandler cfg provider1 q1 session1 store).store).response =
        .send 200 connectedPage ∧
    getTokens (callbackHandler cfg provider2 q2 session2
      (callbackHandler cfg provider1 q1 session1 store).store).store = some B := by
  have key : ∀ (provider : TokenRequest → ProviderOutcome) (q : CallbackQuery)
      (session : Session) (st : TokenStore) (status : Nat) (P : TokenPair),
      callbackRejects q session = false → (200 ≤ status ∧ status < 300) →
      provider (tokenRequest cfg q.code session.codeVerifier) =
        .http status (.props P.accessToken P.refreshToken) →
      (callbackHandler cfg provider q session st).response = .send 200 connectedPage ∧
      getTokens (callbackHandler cfg provider q session st).store = some P := by
    intro provider q session st status P hv hs hr
    simp [callbackHandler, hv, hr, axiosPost, finalResponse, hs, getTokens, setUserTokens]
  exact ⟨(key provider1 q1 session1 store status1 A hvalid1 hstatus1 hresp1).1,
    (key provider1 q1 session1 store status1 A hvalid1 hstatus1 hresp1).2,
    (key provider2 q2 session2 _ status2 B hvalid2 hstatus2 hresp2).1,
    (key provider2 q2 session2 _ status2 B hvalid2 hstatus2 hresp2).2⟩

/-- Witness for C3: two exchanges in a row, the first returning `AT1`/`RT1` and
the second `AT2`/`RT2`. -/
theorem callback_success_replaces_tokens_witness :
    (callbackHandler ⟨some "id", some "secret"⟩
        (fun _ => .http 200 (.props (.str "AT1") (.str "RT1")))
        ⟨.str "abc", .str "s1"⟩ ⟨.str "s1", .str "v1"⟩ none).response =
      .send 200 connectedPage ∧
    getTokens (callbackHandler ⟨some "id", some "secret"⟩
        (fun _ => .http 200 (.props (.str "AT1") (.str "RT1")))
        ⟨.str "abc", .str "s1"⟩ ⟨.str "s1", .str "v1"⟩ none).store =
      some ⟨.str "AT1", .str "RT1"⟩ ∧
    (callbackHandler ⟨some "id", some "secret"⟩
        (fun _ => .http 201 (.props (.str "AT2") (.str "RT2")))
        ⟨.str "def", .str "s2"⟩ ⟨.str "s2", .str "v2"⟩
        (callbackHandler ⟨some "id", some "secret"⟩
          (fun _ => .http 200 (.props (.str "AT1") (.str "RT1")))
          ⟨.str "abc", .str "s1"⟩ ⟨.str "s1", .str "v1"⟩ none).store).response =
      .send 200 connectedPage ∧
    getTokens (callbackHandler ⟨some "id", some "secret"⟩
        (fun _ => .http 201 (.props (.str "AT2") (.str "RT2")))
        ⟨.str "def", .str "s2"⟩ ⟨.str "s2", .str "v2"⟩
        (callbackHandler ⟨some "id", some "secret"⟩
          (fun _ => .http 200 (.props (.str "AT1") (.str "RT1")))
          ⟨.str "abc", .str "s1"⟩ ⟨.str "s1", .str "v1"⟩ none).store).store =
      some ⟨.str "AT2", .str "RT2"⟩ :=
  callback_success_replaces_tokens ⟨some "id", some "secret"⟩
    (fun _ => .http 200 (.props (.str "AT1") (.str "RT1")))
    (fun _ => .http 201 (.props (.str "AT2") (.str "RT2")))
    ⟨.str "abc", .str "s1"⟩ ⟨.str "def", .str "s2"⟩
    ⟨.str "s1", .str "v1"⟩ ⟨.str "s2", .str "v2"⟩ none 200 201
    ⟨.str "AT1", .str "RT1"⟩ ⟨.str "AT2", .str "RT2"⟩
    (by decide) (by decide) (by decide) (by decide) rfl rfl

/-- C4, as the spec states it, fails: the provider answers the token request
with HTTP 302 and a `Location`, axios follows it to an answer 200 that carries
tokens, and the callback answers 200 with the page and replaces the stored pair. -/
theorem callback_followed_redirect_succeeds :
    callbackRejects ⟨.str "abc", .str "s1"⟩ ⟨.str "s1", .str "v1"⟩ = false ∧
    providerStatus
      (ProviderOutcome.located 302 .nullish
        (.http 200 (.props (.str "AT1") (.str "RT1")))) = some 302 ∧
    (callbackHandler ⟨some "id", some "secret"⟩
        (fun _ => .located 302 .nullish (.http 200 (.props (.str "AT1") (.str "RT1"))))
        ⟨.str "abc", .str "s1"⟩ ⟨.str "s1", .str "v1"⟩
        (some ⟨.str "AT0", .str "RT0"⟩)).response = .send 200 connectedPage ∧
    (callbackHandler ⟨some "id", some "secret"⟩
        (fun _ => .located 302 .nullish (.http 200 (.props (.str "AT1") (.str "RT1"))))
        ⟨.str "abc", .str "s1"⟩ ⟨.str "s1", .str "v1"⟩
        (some ⟨.str "AT0", .str "RT0"⟩)).store = some ⟨.str "AT1", .str "RT1"⟩ := by
  decide

/-- C4, amended: when validation passes and the token request fails (a network
error, too many redirects, or a final response, after axios has followed every
3xx answer that carries a `Location`, whose status is outside 2xx), the callback
answers HTTP 500, the Token Store holds what it held before, and the session's
`state` and `codeVerifier` are cleared. -/
theorem callback_exchange_failure (cfg : Config) (provider : TokenRequest → ProviderOutcome)
    (q : CallbackQuery) (session : Session) (store : TokenStore)
    (hvalid : callbackRejects q session = false)
    (hfail : requestFails (provider (tokenRequest cfg q.code session.codeVerifier))) :
    (callbackHandler cfg provider q session store).response =
      .send 500 "OAuth token exchange failed." ∧
    (callbackHandler cfg provider q session store).response.status = 500 ∧
    (callbackHandler cfg provider q session store).store = store ∧
    (callbackHandler cfg provider q session store).session.state = .null ∧
    (callbackHandler cfg provider q session store).session.codeVerifier = .null := by
  have hnone := axiosPost_eq_none_of_fails _ hfail
  simp [callbackHandler, hvalid, hnone, Response.status]

/-- Witness for C4, amended: the token endpoint answers HTTP 401 while the store
holds a pair. -/
theorem callback_exchange_failure_witness :
    (callbackHandler ⟨some "id", some "secret"⟩ (fun _ => .http 401 .nullish)
        ⟨.str "abc", .str "s1"⟩ ⟨.str "s1", .str "v1"⟩
        (some ⟨.str "AT0", .str "RT0"⟩)).response =
      .send 500 "OAuth token exchange failed." ∧
    (callbackHandler ⟨some "id", some "secret"⟩ (fun _ => .http 401 .nullish)
        ⟨.str "abc", .str "s1"⟩ ⟨.str "s1", .str "v1"⟩
        (some ⟨.str "AT0", .str "RT0"⟩)).response.status = 500 ∧
    (callbackHandler ⟨some "id", some "secret"⟩ (fun _ => .http 401 .nullish)
        ⟨.str "abc", .str "s1"⟩ ⟨.str "s1", .str "v1"⟩
        (some ⟨.str "AT0", .str "RT0"⟩)).store = some ⟨.str "AT0", .str "RT0"⟩ ∧
    (callbackHandler ⟨some "id", some "secret"⟩ (fun _ => .http 401 .nullish)
        ⟨.str "abc", .str "s1"⟩ ⟨.str "s1", .str "v1"⟩
        (some ⟨.str "AT0", .str "RT0"⟩)).session.state = .null ∧
    (callbackHandler ⟨some "id", some "secret"⟩ (fun _ => .http 401 .nullish)
        ⟨.str "abc", .str "s1"⟩ ⟨.str "s1", .str "v1"⟩
        (some ⟨.str "AT0", .str "RT0"⟩)).session.codeVerifier = .null :=
  callback_exchange_failure ⟨some "id", some "secret"⟩ (fun _ => .http 401 .nullish)
    ⟨.str "abc", .str "s1"⟩ ⟨.str "s1", .str "v1"⟩ (some ⟨.str "AT0", .str "RT0"⟩)
    (by decide) (by simp [requestFails, finalResponse])

/-- C5: when a callback passes validation, whatever its exchange then does, the
same `code` and `state` sent again in the same session are rejected with HTTP
400: the session's `codeVerifier` is no longer present, so the second callback
sends no token request and does not touch the Token Store. -/
theorem callback_replay_rejected (cfg : Config)
    (provider1 provider2 : TokenRequest → ProviderOutcome) (q : CallbackQuery)
    (session : Session) (store : TokenStore)
    (hfirst : callbackRejects q session = false) :
    missingOrEmpty (callbackHandler cfg provider1 q session store).session.codeVerifier ∧
    callbackRejects q (callbackHandler cfg provider1 q session store).session = true ∧
    (callbackHandler cfg provider2 q
      (callbackHandler cfg provider1 q session store).session
      (callbackHandler cfg provider1 q session store).store).response =
        .send 400 "Invalid OAuth callback." ∧
    (callbackHandler cfg provider2 q
      (callbackHandler cfg provider1 q session store).session
      (callbackHandler cfg provider1 q session store).store).requests = [] ∧
    (callbackHandler cfg provider2 q
      (callbackHandler cfg provider1 q session store).session
      (callbackHandler cfg provider1 q session store).store).store =
        (callbackHandler cfg provider1 q session store).store := by
  have hs := callbackHandler_accepted_session cfg provider1 q session store hfirst
  have hrej : callbackRejects q (callbackHandler cfg provider1 q session store).session
      = true := by
    rw [hs]
    simp [callbackRejects, jsNot]
  refine ⟨?_, hrej, ?_, ?_, ?_⟩
  · rw [hs]
    exact Or.inr (Or.inl rfl)
  · rw [callbackHandler_rejected cfg provider2 q _ _ hrej]
  · rw [callbackHandler_rejected cfg provider2 q _ _ hrej]
  · rw [callbackHandler_rejected cfg provider2 q _ _ hrej]

/-- Witness for C5: a callback that passes and succeeds, then the same callback again. -/
theorem callback_replay_rejected_witness :
    missingOrEmpty (callbackHandler ⟨some "id", some "secret"⟩
      (fun _ => .http 200 (.props (.str "AT1") (.str "RT1")))
      ⟨.str "abc", .str "s1"⟩ ⟨.str "s1", .str "v1"⟩ none).session.codeVerifier ∧
    callbackRejects ⟨.str "abc", .str "s1"⟩ (callbackHandler ⟨some "id", some "secret"⟩
      (fun _ => .http 200 (.props (.str "AT1") (.str "RT1")))
      ⟨.str "abc", .str "s1"⟩ ⟨.str "s1", .str "v1"⟩ none).session = true ∧
    (callbackHandler ⟨some "id", some "secret"⟩
      (fun _ => .http 200 (.props (.str "AT2") (.str "RT2"))) ⟨.str "abc", .str "s1"⟩
      (callbackHandler ⟨some "id", some "secret"⟩
        (fun _ => .http 200 (.props (.str "AT1") (.str "RT1")))
        ⟨.str "abc", .str "s1"⟩ ⟨.str "s1", .str "v1"⟩ none).session
      (callbackHandler ⟨some "id", some "secret"⟩
        (fun _ => .http 200 (.props (.str "AT1") (.str "RT1")))
        ⟨.str "abc", .str "s1"⟩ ⟨.str "s1", .str "v1"⟩ none).store).response =
        .send 400 "Invalid OAuth callback." ∧
    (callbackHandler ⟨some "id", some "secret"⟩
      (fun _ => .http 200 (.props (.str "AT2") (.str "RT2"))) ⟨.str "abc", .str "s1"⟩
      (callbackHandler ⟨some "id", some "secret"⟩
        (fun _ => .http 200 (.props (.str "AT1") (.str "RT1")))
        ⟨.str "abc", .str "s1"⟩ ⟨.str "s1", .str "v1"⟩ none).session
      (callbackHandler ⟨some "id", some "secret"⟩
        (fun _ => .http 200 (.props (.str "AT1") (.str "RT1")))
        ⟨.str "abc", .str "s1"⟩ ⟨.str "s1", .str "v1"⟩ none).store).requests = [] ∧
    (callbackHandler ⟨some "id", some "secret"⟩
      (fun _ => .http 200 (.props (.str "AT2") (.str "RT2"))) ⟨.str "abc", .str "s1"⟩
      (callbackHandler ⟨some "id", some "secret"⟩
        (fun _ => .http 200 (.props (.str "AT1") (.str "RT1")))
        ⟨.str "abc", .str "s1"⟩ ⟨.str "s1", .str "v1"⟩ none).session
      (callbackHandler ⟨some "id", some "secret"⟩
        (fun _ => .http 200 (.props (.str "AT1") (.str "RT1")))
        ⟨.str "abc", .str "s1"⟩ ⟨.str "s1", .str "v1"⟩ none).store).store =
        (callbackHandler ⟨some "id", some "secret"⟩
          (fun _ => .http 200 (.props (.str "AT1") (.str "RT1")))
          ⟨.str "abc", .str "s1"⟩ ⟨.str "s1", .str "v1"⟩ none).store :=
  callback_replay_rejected ⟨some "id", some "secret"⟩
    (fun _ => .http 200 (.props (.str "AT1") (.str "RT1")))
    (fun _ => .http 200 (.props (.str "AT2") (.str "RT2")))
    ⟨.str "abc", .str "s1"⟩ ⟨.str "s1", .str "v1"⟩ none (by decide)

/-- C6, as the spec states it, fails: a callback with a forged `state` is
answered 400 and the session still holds the pending `state` and `codeVerifier`. -/
theorem callback_rejected_keeps_session :
    (callbackHandler ⟨some "id", some "secret"⟩ (fun _ => .networkError)
        ⟨.str "abc", .str "forged"⟩ ⟨.str "s1", .str "v1"⟩ none).response.status = 400 ∧
    (callbackHandler ⟨some "id", some "secret"⟩ (fun _ => .networkError)
        ⟨.str "abc", .str "forged"⟩ ⟨.str "s1", .str "v1"⟩ none).session.state =
      .str "s1" ∧
    (callbackHandler ⟨some "id", some "secret"⟩ (fun _ => .networkError)
        ⟨.str "abc", .str "forged"⟩ ⟨.str "s1", .str "v1"⟩ none).session.codeVerifier =
      .str "v1" := by
  decide

/-- C6, amended: a callback that passes validation leaves the session's `state`
and `codeVerifier` both `null`, whether its exchange succeeds or fails; a
callback that is rejected with HTTP 400 leaves the session as it was. -/
theorem callback_session_after (cfg : Config) (provider : TokenRequest → ProviderOutcome)
    (q : CallbackQuery) (session : Session) (store : TokenStore) :
    (callbackHandler cfg provider q session store).session =
      (if (callbackHandler cfg provider q session store).response.status = 400
        then session else { state := .null, codeVerifier := .null }) := by
  by_cases h : callbackRejects q session = true
  · rw [if_pos ((callbackHandler_status_400_iff cfg provider q session store).2 h),
      callbackHandler_rejected cfg provider q session store h]
  · rw [if_neg (fun h400 => h ((callbackHandler_status_400_iff cfg provider q session store).1 h400))]
    exact callbackHandler_accepted_session cfg provider q session store (by simpa using h)

/-- C9: any two callbacks that fail validation get the same response, HTTP 400
with the same body, whichever check failed and whatever the session held. -/
theorem callback_rejections_identical (cfg1 cfg2 : Config)
    (provider1 provider2 : TokenRequest → ProviderOutcome) (q1 q2 : CallbackQuery)
    (session1 session2 : Session) (store1 store2 : TokenStore)
    (h1 : callbackRejects q1 session1 = true) (h2 : callbackRejects q2 session2 = true) :
    (callbackHandler cfg1 provider1 q1 session1 store1).response =
      (callbackHandler cfg2 provider2 q2 session2 store2).response ∧
    (callbackHandler cfg1 provider1 q1 session1 store1).response =
      .send 400 "Invalid OAuth callback." := by
  rw [callbackHandler_rejected cfg1 provider1 q1 session1 store1 h1,
    callbackHandler_rejected cfg2 provider2 q2 session2 store2 h2]
  exact ⟨rfl, rfl⟩

/-- Witness for C9: one callback without `code`, one with a forged `state`. -/
theorem callback_rejections_identical_witness :
    (callbackHandler ⟨some "id", some "secret"⟩ (fun _ => .networkError)
        ⟨.undefined, .str "s1"⟩ ⟨.str "s1", .str "v1"⟩ none).response =
      (callbackHandler ⟨some "id", some "secret"⟩ (fun _ => .networkError)
        ⟨.str "abc", .str "forged"⟩ ⟨.str "s2", .str "v2"⟩
        (some ⟨.str "AT0", .str "RT0"⟩)).response ∧
    (callbackHandler ⟨some "id", some "secret"⟩ (fun _ => .networkError)
        ⟨.undefined, .str "s1"⟩ ⟨.str "s1", .str "v1"⟩ none).response =
      .send 400 "Invalid OAuth callback." :=
  callback_rejections_identical ⟨some "id", some "secret"⟩ ⟨some "id", some "secret"⟩
    (fun _ => .networkError) (fun _ => .networkError)
    ⟨.undefined, .str "s1"⟩ ⟨.str "abc", .str "forged"⟩
    ⟨.str "s1", .str "v1"⟩ ⟨.str "s2", .str "v2"⟩ none (some ⟨.str "AT0", .str "RT0"⟩)
    (by decide) (by decide)

/-! ## The engagement trigger -/

theorem parseCron_engagementSchedule :
    parseCron engagementSchedule =
      some ⟨.values [30], .values [13, 20], .any, .any, .any⟩ := by
  decide

/-- C7: the expression registered at line 16 fires in a minute exactly when the
minute is 30 and the hour is 13 or 20, on every day; so it does not fire at
20:00, the time the claim and the log message of line 17 name, and fires at
20:30 instead. -/
theorem engagementSchedule_fire_times (t : CronTime) :
    (cronFires engagementSchedule t = true ↔
      t.minute = 30 ∧ (t.hour = 13 ∨ t.hour = 20)) ∧
    cronFires engagementSchedule { t with hour := 20, minute := 0 } = false ∧
    cronFires engagementSchedule { t with hour := 20, minute := 30 } = true ∧
    cronFires engagementSchedule { t with hour := 13, minute := 30 } = true := by
  simp [cronFires, parseCron_engagementSchedule, CronField.admits]

/-! ## Claims on the PKCE helpers -/

/-- C10: for every draw of 32 random bytes, `generateCodeVerifier` is their
lowercase hexadecimal encoding: 64 characters over `[0-9a-f]`, not empty, read
back into the same bytes, and so different for different draws. -/
theorem generateCodeVerifier_hex (rnd : RandomBytes 32) :
    generateCodeVerifier rnd = toHex rnd.val ∧
    (generateCodeVerifier rnd).length = 64 ∧
    (∀ c ∈ (generateCodeVerifier rnd).data, isLowerHexChar c) ∧
    generateCodeVerifier rnd ≠ "" ∧
    fromHexChars (generateCodeVerifier rnd).data = some rnd.val ∧
    (∀ other : RandomBytes 32,
      generateCodeVerifier rnd = generateCodeVerifier other → rnd = other) := by
  refine ⟨rfl, generateCodeVerifier_length rnd, ?_, generateCodeVerifier_ne_empty rnd, ?_, ?_⟩
  · exact toHexChars_lower rnd.val
  · exact fromHexChars_toHexChars rnd.val
  · intro other h
    have h1 := fromHexChars_toHexChars rnd.val
    have h2 := fromHexChars_toHexChars other.val
    have h3 : toHexChars rnd.val = toHexChars other.val := by
      have := congrArg String.data h
      simpa [generateCodeVerifier, toHex] using this
    rw [h3, h2] at h1
    exact Subtype.ext (Option.some.inj h1).symm

/-- C8: for every verifier `v`, `generateCodeChallenge v` is the unpadded
base64url encoding of the SHA-256 digest of `v`: a function of `v` alone, 43
characters long, every character one of `A-Z`, `a-z`, `0-9`, `-`, `_`, and none
of them `+`, `/` or `=`. -/
theorem generateCodeChallenge_base64url (v : String) :
    generateCodeChallenge v = String.mk (base64UrlNoPad (sha256 (utf8Bytes v))) ∧
    (∀ w : String, w = v → generateCodeChallenge w = generateCodeChallenge v) ∧
    (generateCodeChallenge v).length = 43 ∧
    (∀ c ∈ (generateCodeChallenge v).data,
      isBase64UrlChar c ∧ c ≠ '+' ∧ c ≠ '/' ∧ c ≠ '=') := by
  refine ⟨generateCodeChallenge_eq v, fun w h => by rw [h], ?_, ?_⟩
  · rw [generateCodeChallenge_eq]
    simp [String.length, base64UrlNoPad_length, sha256_length]
  · rw [generateCodeChallenge_eq]
    intro c hc
    have h := base64UrlNoPad_inAlphabet _ c hc
    refine ⟨h.1, ?_, ?_, h.2⟩
    · rintro rfl
      revert h
      unfold isBase64UrlChar
      decide
    · rintro rfl
      revert h
      unfold isBase64UrlChar
      decide

/-! ## Start followed by the callback -/

/-- C2: after Start, a callback in the same session whose `state` is the one in
Start's redirect and whose `code` is not empty passes validation; the token
request carries as `code_verifier` the verifier Start stored in the session,
whose challenge is the `code_challenge` of Start's redirect, and the same
`redirect_uri` as Start's redirect. -/
theorem start_then_callback_exchanges (cfg : Config)
    (provider : TokenRequest → ProviderOutcome) (stateBytes : RandomBytes 8)
    (verifierBytes : RandomBytes 32) (session0 : Session) (store : TokenStore)
    (q : CallbackQuery)
    (hstate : lookupParam "state"
      (startHandler cfg stateBytes verifierBytes session0).response.params = some q.state)
    (hcode : ¬ missingOrEmpty q.code) :
    callbackRejects q (startHandler cfg stateBytes verifierBytes session0).session = false ∧
    (callbackHandler cfg provider q
      (startHandler cfg stateBytes verifierBytes session0).session store).response.status
        ≠ 400 ∧
    (callbackHandler cfg provider q
      (startHandler cfg stateBytes verifierBytes session0).session store).requests =
        [tokenRequest cfg q.code (.str (generateCodeVerifier verifierBytes))] ∧
    (startHandler cfg stateBytes verifierBytes session0).session.codeVerifier =
      .str (generateCodeVerifier verifierBytes) ∧
    lookupParam "code_verifier"
      (tokenRequest cfg q.code (.str (generateCodeVerifier verifierBytes))).form =
        some (.str (generateCodeVerifier verifierBytes)) ∧
    lookupParam "code_challenge"
      (startHandler cfg stateBytes verifierBytes session0).response.params =
        some (.str (generateCodeChallenge (generateCodeVerifier verifierBytes))) ∧
    lookupParam "redirect_uri"
      (tokenRequest cfg q.code (.str (generateCodeVerifier verifierBytes))).form =
        lookupParam "redirect_uri"
          (startHandler cfg stateBytes verifierBytes session0).response.params ∧
    lookupParam "redirect_uri"
      (tokenRequest cfg q.code (.str (generateCodeVerifier verifierBytes))).form =
        some (.str redirectUri) := by
  have hq : q.state = .str (toHex stateBytes.val) := by
    have h : some (JSVal.str (toHex stateBytes.val)) = some q.state := by
      rw [← hstate]
      simp [startHandler, Response.params, startParams, lookupParam]
    exact (Option.some.inj h).symm
  have hnot : jsNot q.code = false := by
    cases hj : jsNot q.code with
    | false => rfl
    | true => exact absurd ((jsNot_eq_true_iff q.code).1 hj) hcode
  have hver : jsNot (.str (generateCodeVerifier verifierBytes)) = false := by
    simpa [jsNot] using generateCodeVerifier_ne_empty verifierBytes
  have hvalid :
      callbackRejects q (startHandler cfg stateBytes verifierBytes session0).session
        = false := by
    simp [callbackRejects, startHandler, hq, hnot, hver, strictEq]
  refine ⟨hvalid, ?_, ?_, rfl, ?_, ?_, ?_, ?_⟩
  · intro h400
    rw [callbackHandler_status_400_iff, hvalid] at h400
    exact Bool.false_ne_true h400
  · exact callbackHandler_accepted_requests cfg provider q _ store hvalid
  · simp [tokenRequest, lookupParam]
  · simp [startHandler, Response.params, startParams, lookupParam]
  · simp [tokenRequest, startHandler, Response.params, startParams, lookupParam]
  · simp [tokenRequest, lookupParam, redirectUri]

/-- Witness for C2: Start with all-zero random bytes, then the callback with the
`state` of that redirect and the code "abc". -/
theorem start_then_callback_exchanges_witness :
    lookupParam "state"
      (startHandler sampleConfig (zeroBytes 8) (zeroBytes 32) ⟨.undefined, .undefined⟩
        ).response.params = some (JSVal.str "0000000000000000") ∧
    (callbackHandler sampleConfig (fun _ => .networkError)
      ⟨.str "abc", .str "0000000000000000"⟩
      (startHandler sampleConfig (zeroBytes 8) (zeroBytes 32) ⟨.undefined, .undefined⟩).session
      none).requests =
        [tokenRequest sampleConfig (.str "abc")
          (.str (generateCodeVerifier (zeroBytes 32)))] ∧
    lookupParam "code_challenge"
      (startHandler sampleConfig (zeroBytes 8) (zeroBytes 32) ⟨.undefined, .undefined⟩
        ).response.params =
        some (.str (generateCodeChallenge (generateCodeVerifier (zeroBytes 32)))) :=
  ⟨by decide,
   (start_then_callback_exchanges sampleConfig (fun _ => .networkError) (zeroBytes 8)
      (zeroBytes 32) ⟨.undefined, .undefined⟩ none ⟨.str "abc", .str "0000000000000000"⟩
      (by decide) (by simp [missingOrEmpty])).2.2.1,
   (start_then_callback_exchanges sampleConfig (fun _ => .networkError) (zeroBytes 8)
      (zeroBytes 32) ⟨.undefined, .undefined⟩ none ⟨.str "abc", .str "0000000000000000"⟩
      (by decide) (by simp [missingOrEmpty])).2.2.2.2.2.1⟩

end Agendify
